import Mathlib

/-!
Verification of the hazard-composition core of the vessel-drift-analysis
repository.  Python functions are shallowly embedded as Lean definitions:
numpy float arithmetic is modelled over the rationals, numpy integer codes
over the integers, strings over Lean strings (operated on via their
character lists so that every definition is structurally recursive and
evaluates by kernel reduction), and fallible Python code (exceptions,
functions that can fall off the end) returns an Option.
-/

namespace VesselDrift

/-! ### Character and string primitives

Python string operations re-implemented structurally.  They model the exact
semantics used by the repository: str.split(sep) keeps empty fields,
str.split() with no argument splits on whitespace runs and drops empty
fields, int(s) accepts (for the inputs occurring here) a nonempty digit
string and raises ValueError otherwise, and the `in` operator is substring
containment.
-/

/-- Split a character list at every character satisfying p, keeping empty
groups (semantics of Python str.split with an explicit separator). -/
def splitChars (p : Char → Bool) : List Char → List (List Char)
  | [] => [[]]
  | c :: cs =>
    let r := splitChars p cs
    if p c then [] :: r
    else
      match r with
      | [] => [[c]]
      | g :: gs => (c :: g) :: gs

/-- Python str.split(sep) for a one-character separator: empty fields kept. -/
def pySplitOn (sep : Char) (s : String) : List String :=
  (splitChars (fun c => c = sep) s.data).map (fun l => String.mk l)

/-- Python str.split() with no argument: split on whitespace, drop empties. -/
def pySplitWs (s : String) : List String :=
  ((splitChars Char.isWhitespace s.data).filter (fun l => l ≠ [])).map
    (fun l => String.mk l)

/-- Python int(s) for the code strings of this repository: a nonempty string
of decimal digits parses to its value, anything else raises ValueError
(modelled as none). -/
def pyInt (s : String) : Option Nat :=
  if s.data ≠ [] ∧ s.data.all Char.isDigit then
    some (s.data.foldl (fun a c => 10 * a + (c.toNat - '0'.toNat)) 0)
  else none

/-- Python str.isnumeric restricted to the ASCII inputs of this repository:
nonempty and all decimal digits. -/
def pyIsNumeric (s : String) : Bool :=
  !s.data.isEmpty && s.data.all Char.isDigit

/-- Substring test on character lists (helper for pyInStr). -/
def containsSub (sub : List Char) : List Char → Bool
  | [] => false
  | c :: cs => sub.isPrefixOf (c :: cs) || containsSub sub cs

/-- Python substring containment, sub in s.  An empty sub is contained in
every string. -/
def pyInStr (sub s : String) : Bool :=
  sub.data.isEmpty || containsSub sub.data s.data

/-! ### utils.py -/

/-- Source vessel_drift_analysis/utils.py, lon360_to_lon180:
np.mod(lon - 180, 360) - 180 on integer degrees.  numpy mod is the flooring
modulus, which for the positive modulus 360 agrees with the Euclidean
modulus of Int. -/
def lon360_to_lon180 (lon : Int) : Int :=
  (lon - 180) % 360 - 180

/-- Source vessel_drift_analysis/utils.py, lon360_to_lon180 applied to the
float arrays of the simulation files, modelled over the rationals:
np.mod(lon - 180, 360) - 180 with the flooring modulus. -/
def lon360_to_lon180_q (lon : Rat) : Rat :=
  (lon - 180) - 360 * ((lon - 180) / 360).floor - 180

/-- Source vessel_drift_analysis/utils.py, get_stranded_flag_from_status:
split the flag_meanings attribute on whitespace and return the position of
the word stranded.  The Python loop has no else branch: when the word is
absent the function falls off the end and silently returns None (not an
exception), modelled as none. -/
def get_stranded_flag_from_status (flag_meanings : String) : Option Nat :=
  (pySplitWs flag_meanings).findIdx? (fun f => f == "stranded")

/-- Source drift_results.py (top level), get_stranded_flag: identical loop
but the flag_meanings attribute is split on single spaces.  Also silently
returns None when the word stranded is absent. -/
def get_stranded_flag (flag_meanings : String) : Option Nat :=
  (pySplitOn ' ' flag_meanings).findIdx? (fun f => f == "stranded")

/-! ### esi.py: sensitivity-code cleaning -/

/-- Source vessel_drift_analysis/esi.py, the body of the per-part loop of
clean_esi_string: the literal None sentinel becomes 5; a numeric part is
parsed as is; any other part has exactly its final character removed
(code[:-1]) and the remainder passed to int, which raises (none) when the
remainder is not a numeral. -/
def clean_esi_part (code : String) : Option Nat :=
  if code = "None" then some 5
  else if pyIsNumeric code then pyInt code
  else pyInt (code.dropRight 1)

/-- Map clean_esi_part over a list of parts, propagating a ValueError. -/
def cleanParts : List String → Option (List Nat)
  | [] => some []
  | c :: cs =>
    match clean_esi_part c, cleanParts cs with
    | some v, some vs => some (v :: vs)
    | _, _ => none

/-- Source vessel_drift_analysis/esi.py, clean_esi_string: split the raw
sensitivity string on the slash, clean each part, return the Python max of
the resulting values.  str.split never returns an empty list, so the max is
over a nonempty list whenever all parts parse. -/
def clean_esi_string (esi : String) : Option Nat :=
  match cleanParts (pySplitOn '/' esi) with
  | none => none
  | some [] => none
  | some (v :: vs) => some (vs.foldl max v)

/-- Modelled from the spec words (one part): the sentinel is replaced by 5;
any other part has its trailing non-numeric characters stripped and its
leading numeral parsed. -/
def specCleanPart (code : String) : Option Nat :=
  if code = "None" then some 5
  else pyInt (String.mk
    (((code.data.reverse.dropWhile (fun c => !c.isDigit)).reverse).takeWhile
      Char.isDigit))

/-- Map specCleanPart over the parts, propagating failure. -/
def specCleanParts : List String → Option (List Nat)
  | [] => some []
  | c :: cs =>
    match specCleanPart c, specCleanParts cs with
    | some v, some vs => some (v :: vs)
    | _, _ => none

/-- Modelled from the spec words for the cleaning rule (for comparison with
clean_esi_string): split on the slash, replace each sentinel part by 5,
strip trailing non-numeric characters from each other part and parse its
leading numeral, and return the maximum of the parsed values. -/
def clean_sensitivity_code_spec (esi : String) : Option Nat :=
  match specCleanParts (pySplitOn '/' esi) with
  | none => none
  | some [] => none
  | some (v :: vs) => some (vs.foldl max v)

/-! ### ais.py -/

/-- Two-digit zero-padded number, the Python format {n:02}. -/
def pad2 (n : Nat) : String :=
  if n < 10 then "0" ++ toString n else toString n

/-- AIS raster file name from the template
vessel_type underscore year month 01 dash endYear endMonth 01 _total.tif. -/
def aisFileName (vessel_type : String) (year month endYear endMonth : Nat) : String :=
  vessel_type ++ "_" ++ toString year ++ pad2 month ++ "01-" ++
    toString endYear ++ pad2 endMonth ++ "01_total.tif"

/-- Source ais.py, AISSet._get_ais_paths: one candidate path per month of the
year and per configured vessel type, built from the naming template alone —
the existence of the file on disk is never checked. -/
def get_ais_paths (vessel_types : List String) (year : Nat) : List String :=
  (List.range 12).flatMap (fun m0 =>
    let month := m0 + 1
    let endYear := if month = 12 then year + 1 else year
    let endMonth := if month = 12 then 1 else month + 1
    vessel_types.map (fun vt => aisFileName vt year month endYear endMonth))

/-- Source ais.py, AISSet.get_ais_path: a Python for-loop with a break and no
else clause; after the loop the variable path holds the first list element
whose name contains both the vessel type and the file date as substrings, or
— when nothing matched — the final element of the list.  Only on an empty
list does the code fail (NameError), modelled as none. -/
def get_ais_path (paths : List String) (year : Nat) (vessel_type : String)
    (sim_month : Nat) : Option String :=
  let file_date := toString year ++ pad2 sim_month ++ "01"
  match paths.find? (fun p => pyInStr vessel_type p && pyInStr file_date p) with
  | some p => some p
  | none => paths.getLast?

/-- Source ais.py, AIS._load_vessel_counts: keep exactly the raster cells
whose count is strictly positive, as (location, count) records; these are
the points the k-d tree is built on. -/
def load_vessel_counts (raster : List ((Rat × Rat) × Int)) :
    List ((Rat × Rat) × Int) :=
  raster.filter (fun cell => 0 < cell.2)

/-! ### Drift simulation pipeline (drift_results.py) -/

/-- One simulation result file: the embedded flag_meanings attribute and the
per-particle, per-time-step status codes, positions (longitudes in the
native [0, 360) convention) and, for spill runs, beached-oil mass. -/
structure SimDataset where
  flag_meanings : String
  status : List (List Int)
  lon : List (List Rat)
  lat : List (List Rat)
  mass_oil : List (List Rat)

/-- Element of a two-dimensional array at [i, j] (read only at index pairs
produced by argwhere on an array of the same shape). -/
def getAt (m : List (List Rat)) (i j : Nat) : Rat :=
  (m.getD i []).getD j 0

/-- numpy comparison ds.status.values == stranded_flag at one entry.  When
flag resolution silently produced Python None, the elementwise comparison
with None is False everywhere, so no entry matches. -/
def statusMatches (s : Int) (flag : Option Nat) : Bool :=
  match flag with
  | some f => s == (f : Int)
  | none => false

/-- np.argwhere(ds.status.values == stranded_flag): the (particle, time)
index pairs of the matching entries, in row-major order. -/
def argwhereStranded (ds : SimDataset) (flag : Option Nat) : List (Nat × Nat) :=
  ds.status.enum.flatMap (fun pi =>
    pi.2.enum.filterMap (fun qt =>
      if statusMatches qt.2 flag then some (pi.1, qt.1) else none))

/-- ESI catalogue as the pipeline consumes it: the dense point list with one
segment id per point, and the k-d tree nearest-neighbour lookup abstracted
as a function from a query location to the index of the nearest point. -/
structure ESICat where
  locs : List (Rat × Rat)
  esi_id : List String
  query : Rat × Rat → Nat

/-- Segment id assigned to one stranded (particle, time) pair: convert its
longitude back to [-180, 180), query the tree at the stranding location,
and read the esi_id column at the returned index. -/
def strandingId (ds : SimDataset) (esi : ESICat) (p : Nat × Nat) : String :=
  let lon := lon360_to_lon180_q (getAt ds.lon p.1 p.2)
  let lat := getAt ds.lat p.1 p.2
  esi.esi_id.getD (esi.query (lon, lat)) ""

/-- Source drift_results.py, DriftResult._get_esi_per_particle.  The output
array is allocated with np.empty — uninitialised memory — so the embedding
takes the initial contents mem (length nvessels) as an explicit argument.
The fancy-index assignment writes the stranding segment id at every
stranded particle index, later writes winning; all other entries keep
whatever mem held. -/
def get_esi_per_particle (ds : SimDataset) (esi : ESICat) (mem : List String) :
    List String :=
  let flag := get_stranded_flag_from_status ds.flag_meanings
  let pairs := argwhereStranded ds flag
  pairs.foldl (fun arr p => arr.set p.1 (strandingId ds esi p)) mem

/-- Insertion-ordered dictionary increment, the Python defaultdict(int)
update counts[id] += 1. -/
def upsertCount (acc : List (String × Nat)) (k : String) : List (String × Nat) :=
  match acc with
  | [] => [(k, 1)]
  | (k₁, c) :: rest =>
    if k₁ = k then (k₁, c + 1) :: rest else (k₁, c) :: upsertCount rest k

/-- Source drift_results.py, DriftResult._get_stranded_per_esi_segment:
count particles per segment id, skipping the empty id. -/
def get_stranded_per_esi_segment (ds : SimDataset) (esi : ESICat)
    (mem : List String) : List (String × Nat) :=
  (get_esi_per_particle ds esi mem).foldl
    (fun acc id => if id = "" then acc else upsertCount acc id) []

/-- Source drift_results.py, DriftResult._calc_pb_per_esi_segment: the
per-segment counts divided by their sum.  On an empty counts table pandas
divides no rows, so the result is the empty table and no division is
performed. -/
def calc_pb_per_esi_segment (ds : SimDataset) (esi : ESICat)
    (mem : List String) : List (String × Rat) :=
  let counts := get_stranded_per_esi_segment ds esi mem
  let total : Rat := counts.foldl (fun a p => a + (p.2 : Nat)) 0
  counts.map (fun p => (p.1, (p.2 : Rat) / total))

/-- Label lookup of .loc for a vector of labels: each label must be present
in the table or pandas raises KeyError (modelled as none). -/
def lookupAll (table : List (String × Rat)) : List String → Option (List Rat)
  | [] => some []
  | id :: rest =>
    match table.lookup id, lookupAll table rest with
    | some v, some vs => some (v :: vs)
    | _, _ => none

/-- Source drift_results.py, DriftResult._calc_pb_per_particle: append an
explicit zero row for the empty id to the per-segment table, then look up
the per-particle ids with .loc — a missing label raises KeyError, modelled
as none. -/
def calc_pb_per_particle (ds : SimDataset) (esi : ESICat) (mem : List String) :
    Option (List Rat) :=
  let esiPer := get_esi_per_particle ds esi mem
  let patched := calc_pb_per_esi_segment ds esi mem ++ [("", 0)]
  lookupAll patched esiPer

/-- Source drift_results.py, DriftResult._calc_pt_per_particle at one
particle: the count of the AIS cell returned by the nearest-neighbour query
for the release point, divided by the number of days in the month, clipped
to one from above (pt[pt > 1] = 1). -/
def calc_pt (counts : List Int) (ix : Nat) (ndays : Nat) : Rat :=
  let pt : Rat := ((counts.getD ix 0 : Int) : Rat) / ((ndays : Nat) : Rat)
  if 1 < pt then 1 else pt

/-- Per-particle pt over the vector of query results, the vectorised form of
DriftResult._calc_pt_per_particle. -/
def calc_pt_per_particle (counts : List Int) (ixs : List Nat) (ndays : Nat) :
    List Rat :=
  ixs.map (fun ix => calc_pt counts ix ndays)

/-! ### Spill simulation pipeline (spill_results.py) -/

/-- Source vessel_drift_analysis/spill_results.py,
SpillResult._get_oil_mass_per_particle.  The output array is allocated with
np.empty, so the embedding takes the initial contents mem as an explicit
argument; the fancy-index assignment writes the beached mass at every
stranded particle index, later writes winning. -/
def get_oil_mass_per_particle (ds : SimDataset) (mem : List Rat) : List Rat :=
  let flag := get_stranded_flag_from_status ds.flag_meanings
  let pairs := argwhereStranded ds flag
  pairs.foldl (fun arr p => arr.set p.1 (getAt ds.mass_oil p.1 p.2)) mem

/-- Insertion-ordered dictionary update for one particle of a spill run:
add its mass to the segment total and bump the segment hit count, matching
the two defaultdict updates of _calc_concentration_index.  Records are
(segment id, (summed mass, hit count)). -/
def upsertMass (acc : List (String × Rat × Nat)) (k : String) (m : Rat) :
    List (String × Rat × Nat) :=
  match acc with
  | [] => [(k, m, 1)]
  | (k₁, s, c) :: rest =>
    if k₁ = k then (k₁, s + m, c + 1) :: rest
    else (k₁, s, c) :: upsertMass rest k m

/-- Per-segment accumulation loop of _calc_concentration_index: zip the
per-particle masses with the per-particle segment ids, skip particles with
the empty id, and accumulate summed mass and hit count per segment in
insertion order (the region dictionary, derived from the id alone, is
omitted). -/
def aggregate_by_esi (particles : List (Rat × String)) :
    List (String × Rat × Nat) :=
  particles.foldl
    (fun acc p => if p.2 = "" then acc else upsertMass acc p.2 p.1) []

/-- Source vessel_drift_analysis/spill_results.py, the arithmetic tail of
SpillResult._calc_concentration_index on the per-particle mass and id
arrays.  Rows are (esi_id, summed oil mass, cs, pb).  The code computes
pb = hits / total hits, ensemble mean mass = summed mass / hits, and then
cs = ensemble mean mass divided by oil_mass.max() — the maximum of the
summed masses, not of the mean masses.  np.max of an empty array raises
(none) when no particle beached. -/
def calc_concentration_index (oil_mass : List Rat) (esi_ids : List String) :
    Option (List (String × Rat × Rat × Rat)) :=
  let groups := aggregate_by_esi (oil_mass.zip esi_ids)
  match groups.map (fun g => g.2.1) with
  | [] => none
  | m :: ms =>
    let maxMass := ms.foldl max m
    let totalHits : Rat := groups.foldl (fun a g => a + (g.2.2 : Nat)) 0
    some (groups.map (fun g =>
      (g.1, g.2.1, ((g.2.1 / ((g.2.2 : Nat) : Rat)) / maxMass),
        (((g.2.2 : Nat) : Rat) / totalHits))))

/-- Modelled from the spec words for the concentration index (for comparison
with calc_concentration_index): cs of a segment is its mean beached mass
divided by the maximum mean beached mass over the segments of the run. -/
def concentration_index_spec (oil_mass : List Rat) (esi_ids : List String) :
    Option (List (String × Rat)) :=
  let groups := aggregate_by_esi (oil_mass.zip esi_ids)
  match groups.map (fun g => g.2.1 / ((g.2.2 : Nat) : Rat)) with
  | [] => none
  | m :: ms =>
    let maxMean := ms.foldl max m
    some (groups.map (fun g => (g.1, (g.2.1 / ((g.2.2 : Nat) : Rat)) / maxMean)))

/-! ### Hazard combination (scripts/analysis/calculate-total-hazard-and-risk.py) -/

/-- One row of the concatenated drift-hazard table.  esi_id is None for a
particle that never stranded; pandas groupby drops rows whose key is null. -/
structure DriftRow where
  date : String
  vessel_type : String
  esi_id : Option String
  stranding_hazard : Rat
  breach_prob : Rat

/-- One row of the concatenated spill-hazard table (always keyed by a
segment that was hit). -/
structure SpillRow where
  date : String
  vessel_type : String
  esi_id : String
  oil_mass : Rat
  cs : Rat
  pb : Rat

/-- Join key (date, vessel_type, esi_id). -/
abbrev HazardKey := String × String × String

/-- Insertion-ordered grouped sum of one rational column. -/
def upsertAdd (acc : List (HazardKey × Rat)) (k : HazardKey) (v : Rat) :
    List (HazardKey × Rat) :=
  match acc with
  | [] => [(k, v)]
  | (k₁, s) :: rest =>
    if k₁ = k then (k₁, s + v) :: rest else (k₁, s) :: upsertAdd rest k v

/-- Insertion-ordered grouped sum of the three spill columns
(oil_mass, cs, pb). -/
def upsertAdd3 (acc : List (HazardKey × Rat × Rat × Rat)) (k : HazardKey)
    (v : Rat × Rat × Rat) : List (HazardKey × Rat × Rat × Rat) :=
  match acc with
  | [] => [(k, v)]
  | (k₁, s) :: rest =>
    if k₁ = k then (k₁, s.1 + v.1, s.2.1 + v.2.1, s.2.2 + v.2.2) :: rest
    else (k₁, s) :: upsertAdd3 rest k v

/-- Source combine_hazard_results, drift side: breach_hazard =
stranding_hazard * breach_prob per row, grouped by (date, vessel_type,
esi_id) with null keys dropped, summed, and rows with a non-positive sum
filtered out.  Pandas sorts group keys; only key membership matters here,
insertion order is kept. -/
def group_breach_hazard (rows : List DriftRow) : List (HazardKey × Rat) :=
  (rows.foldl
    (fun acc r =>
      match r.esi_id with
      | none => acc
      | some id =>
        upsertAdd acc (r.date, r.vessel_type, id)
          (r.stranding_hazard * r.breach_prob)) []).filter
    (fun p => 0 < p.2)

/-- Source combine_hazard_results, spill side: group by (date, vessel_type,
esi_id) and sum oil_mass, cs and pb. -/
def group_spill_hazard (rows : List SpillRow) :
    List (HazardKey × Rat × Rat × Rat) :=
  rows.foldl
    (fun acc r =>
      upsertAdd3 acc (r.date, r.vessel_type, r.esi_id) (r.oil_mass, r.cs, r.pb))
    []

/-- Source combine_hazard_results, the join:
breach_hazard.join(spill_hazard) — the pandas DataFrame.join default, a LEFT
join on the shared (date, vessel_type, esi_id) index.  Each drift-side key
keeps its breach_hazard and receives the spill columns when the key exists
on the spill side, NaN (modelled none) otherwise; spill-only keys do not
appear. -/
def combine_hazard_results (drift : List DriftRow) (spill : List SpillRow) :
    List (HazardKey × Rat × Option (Rat × Rat × Rat)) :=
  let bh := group_breach_hazard drift
  let sp := group_spill_hazard spill
  bh.map (fun p => (p.1, p.2, sp.lookup p.1))

/-- The hz_s computation and the later fillna(0): hz_s = breach_hazard * pb *
cs propagates NaN when the spill columns are missing, and fillna replaces
every such NaN by zero.  Rows are
(key, breach_hazard, oil_mass, cs, pb, hz_s). -/
def total_hazard_filled (drift : List DriftRow) (spill : List SpillRow) :
    List (HazardKey × Rat × Rat × Rat × Rat × Rat) :=
  (combine_hazard_results drift spill).map (fun row =>
    match row.2.2 with
    | some v => (row.1, row.2.1, v.1, v.2.1, v.2.2, row.2.1 * v.2.2 * v.2.1)
    | none => (row.1, row.2.1, 0, 0, 0, 0))

/-! ### Concrete fixtures used by the theorems -/

/-- Run with one particle and one time step whose status never equals the
stranded code (the flag list does contain the word stranded, at index 1). -/
def noStrandDS : SimDataset :=
  { flag_meanings := "active stranded", status := [[0]], lon := [[0]],
    lat := [[0]], mass_oil := [[0]] }

/-- Run whose embedded flag-meaning list does not contain the word
stranded. -/
def noStrandWordDS : SimDataset :=
  { flag_meanings := "active retired", status := [[0], [1]], lon := [[0], [0]],
    lat := [[0], [0]], mass_oil := [[0], [0]] }

/-- One-point ESI catalogue. -/
def onePointESI : ESICat :=
  { locs := [(0, 0)], esi_id := ["w-1"], query := fun _ => 0 }

/-- AIS path set for 2019 with two configured vessel types. -/
def aisPaths2019 : List String :=
  get_ais_paths ["cargoShips", "tankerShips"] 2019

/-- Single drift row for the join counterexample. -/
def driftRows1 : List DriftRow :=
  [{ date := "2019-01-01", vessel_type := "cargo", esi_id := some "a",
     stranding_hazard := 1, breach_prob := 1 }]

/-- Single spill row, under a key absent from driftRows1. -/
def spillRows1 : List SpillRow :=
  [{ date := "2019-02-01", vessel_type := "tanker", esi_id := "b",
     oil_mass := 2, cs := 1, pb := 1 }]

/-! ### Helper lemmas -/

/-- splitChars never produces the empty list of groups. -/
theorem splitChars_ne_nil (p : Char → Bool) (l : List Char) :
    splitChars p l ≠ [] := by
  induction l with
  | nil => simp [splitChars]
  | cons c cs ih =>
    simp only [splitChars]
    by_cases h : p c
    · simp [h]
    · simp only [h, if_false]
      cases hr : splitChars p cs with
      | nil => simp
      | cons g gs => simp

/-- Python str.split with a separator never returns an empty list. -/
theorem pySplitOn_ne_nil (sep : Char) (s : String) : pySplitOn sep s ≠ [] := by
  simp [pySplitOn, splitChars_ne_nil]

/-- The left fold of max lands on a member of the seeded list. -/
theorem foldl_max_mem (v : Nat) (vs : List Nat) : vs.foldl max v ∈ v :: vs := by
  induction vs generalizing v with
  | nil => simp
  | cons w ws ih =>
    simp only [List.foldl_cons]
    rcases List.mem_cons.1 (ih (max v w)) with h₁ | h₁
    · rw [h₁]
      rcases max_choice v w with h₂ | h₂ <;> rw [h₂]
      · exact List.mem_cons_self _ _
      · exact List.mem_cons_of_mem _ (List.mem_cons_self _ _)
    · exact List.mem_cons_of_mem _ (List.mem_cons_of_mem _ h₁)

/-- Every member of the seeded list is at most the left fold of max. -/
theorem le_foldl_max (v : Nat) (vs : List Nat) :
    ∀ w ∈ v :: vs, w ≤ vs.foldl max v := by
  induction vs generalizing v with
  | nil => simp
  | cons u us ih =>
    intro w hw
    simp only [List.foldl_cons]
    have hself : max v u ≤ us.foldl max (max v u) :=
      ih (max v u) (max v u) (List.mem_cons_self _ _)
    rcases List.mem_cons.1 hw with h₁ | h₁
    · subst h₁
      exact Nat.le_trans (Nat.le_max_left w u) hself
    · rcases List.mem_cons.1 h₁ with h₂ | h₂
      · subst h₂
        exact Nat.le_trans (Nat.le_max_right v w) hself
      · exact ih (max v u) w (List.mem_cons_of_mem _ h₂)

/-! ### Claim C1 -/

/-- C1: the concentration index divides the ensemble mean mass by the
maximum of the SUMMED masses per segment (oil_mass.max()), not by the
maximum mean mass as the claim (and the Sepp-Neves definition quoted in the
code) states.  On the run below segment a has the maximum mean beached mass
(10 against 3), yet the code gives it cs = 5/6 while the stated formula
gives 1, and the two outputs disagree on both segments. -/
theorem concentration_index_uses_max_total_mass :
    calc_concentration_index [10, 3, 3, 3, 3] ["a", "b", "b", "b", "b"] =
      some [("a", 10, 5 / 6, 1 / 5), ("b", 12, 1 / 4, 4 / 5)] ∧
    concentration_index_spec [10, 3, 3, 3, 3] ["a", "b", "b", "b", "b"] =
      some [("a", 1), ("b", 3 / 10)] ∧
    (5 / 6 : Rat) ≠ 1 := by
  refine ⟨?_, ?_, by norm_num⟩ <;>
    · simp [calc_concentration_index, concentration_index_spec,
        aggregate_by_esi, upsertMass]
      norm_num

/-! ### Claim C2 -/

/-- C2: when the embedded flag-meaning list does not contain the word
stranded, neither resolver raises — both fall off the end of the loop and
silently return Python None — and the downstream computation proceeds as if
no particle were stranded, producing an ordinary all-zero pb result instead
of propagating a failure. -/
theorem stranded_flag_missing_is_silent :
    get_stranded_flag_from_status "active retired" = none ∧
    get_stranded_flag "active retired" = none ∧
    argwhereStranded noStrandWordDS
      (get_stranded_flag_from_status noStrandWordDS.flag_meanings) = [] ∧
    calc_pb_per_particle noStrandWordDS onePointESI ["", ""] = some [0, 0] := by
  refine ⟨by decide, by decide, by decide, ?_⟩
  simp [calc_pb_per_particle, calc_pb_per_esi_segment,
    get_stranded_per_esi_segment, get_esi_per_particle, argwhereStranded,
    noStrandWordDS, get_stranded_flag_from_status, pySplitWs, splitChars,
    lookupAll, List.lookup]

/-! ### Claim C3 -/

/-- C3: looking up the AIS snapshot path never fails on a nonempty path set.
For a vessel type absent from the set the loop falls through and silently
returns the LAST constructed path — here a tankerShips December file that
does not even contain the requested vessel type — and for a valid vessel
type with simulation month 3 the first name containing the file date
20190301 is the February file (whose interval END is 20190301), so a
different month is silently substituted. -/
theorem ais_path_lookup_never_fails :
    get_ais_path aisPaths2019 2019 "fishingShips" 3 =
      some "tankerShips_20191201-20200101_total.tif" ∧
    pyInStr "fishingShips" "tankerShips_20191201-20200101_total.tif" = false ∧
    get_ais_path aisPaths2019 2019 "tankerShips" 3 =
      some "tankerShips_20190201-20190301_total.tif" := by
  refine ⟨by decide, by decide, by decide⟩

/-! ### Claim C4 -/

/-- C4 counterexample: the combiner is not an outer join.  A key present
only in the grouped spill table does not appear in the combined table: with
one drift row under key (2019-01-01, cargo, a) and one spill row under key
(2019-02-01, tanker, b), the combined table holds exactly the drift key and
the spill key is dropped. -/
theorem combine_drops_spill_only_keys :
    (combine_hazard_results driftRows1 spillRows1).map (fun r => r.1) =
      [("2019-01-01", "cargo", "a")] ∧
    (group_spill_hazard spillRows1).map (fun r => r.1) =
      [("2019-02-01", "tanker", "b")] ∧
    ("2019-02-01", "tanker", "b") ∉
      (combine_hazard_results driftRows1 spillRows1).map (fun r => r.1) := by
  refine ⟨?_, ?_, ?_⟩ <;>
    simp [combine_hazard_results, group_breach_hazard, group_spill_hazard,
      upsertAdd, upsertAdd3, driftRows1, spillRows1]

/-- C4 amended: the combiner performs a pandas LEFT join on
(date, vessel_type, esi_id).  The combined table has exactly the keys of the
grouped-and-filtered drift table; a key present only on the drift side is
kept, with the spill columns and hz_s zero after the fill; a key absent from
the drift side — in particular every spill-only key — never appears. -/
theorem combine_left_join_semantics :
    ∀ (drift : List DriftRow) (spill : List SpillRow),
      ((combine_hazard_results drift spill).map (fun r => r.1) =
        (group_breach_hazard drift).map (fun p => p.1)) ∧
      (∀ k bh, (k, bh) ∈ group_breach_hazard drift →
        (group_spill_hazard spill).lookup k = none →
        (k, bh, (0 : Rat), (0 : Rat), (0 : Rat), (0 : Rat)) ∈
          total_hazard_filled drift spill) ∧
      (∀ k, k ∉ (group_breach_hazard drift).map (fun p => p.1) →
        k ∉ (combine_hazard_results drift spill).map (fun r => r.1)) := by
  intro drift spill
  refine ⟨?_, ?_, ?_⟩
  · simp [combine_hazard_results, List.map_map]
  · intro k bh hmem hnone
    have h₁ : (k, bh, (group_spill_hazard spill).lookup k) ∈
        combine_hazard_results drift spill :=
      List.mem_map_of_mem (fun p => (p.1, p.2, (group_spill_hazard spill).lookup p.1)) hmem
    rw [hnone] at h₁
    have h₂ := List.mem_map_of_mem
      (fun row : HazardKey × Rat × Option (Rat × Rat × Rat) =>
        match row.2.2 with
        | some v => (row.1, row.2.1, v.1, v.2.1, v.2.2, row.2.1 * v.2.2 * v.2.1)
        | none => (row.1, row.2.1, (0 : Rat), (0 : Rat), (0 : Rat), (0 : Rat))) h₁
    exact h₂
  · intro k hk hmem
    have heq : (combine_hazard_results drift spill).map (fun r => r.1) =
        (group_breach_hazard drift).map (fun p => p.1) := by
      simp [combine_hazard_results, List.map_map]
    rw [heq] at hmem
    exact hk hmem

/-- C4 amended, witness: one drift row with breach hazard 2 * 3 = 6 under a
key that has no spill counterpart is kept in the combined table with the
spill columns and hz_s at zero. -/
theorem combine_left_join_semantics_witness :
    ((("2020-05-01", "other", "c") : HazardKey), (6 : Rat), (0 : Rat),
      (0 : Rat), (0 : Rat), (0 : Rat)) ∈
      total_hazard_filled
        [{ date := "2020-05-01", vessel_type := "other", esi_id := some "c",
           stranding_hazard := 2, breach_prob := 3 }] [] :=
  (combine_left_join_semantics
    [{ date := "2020-05-01", vessel_type := "other", esi_id := some "c",
       stranding_hazard := 2, breach_prob := 3 }] []).2.1
    ("2020-05-01", "other", "c") 6
    (by simp [group_breach_hazard, upsertAdd]; norm_num)
    (by simp [group_spill_hazard])

/-! ### Claim C5 -/

/-- C5 counterexample: the cleaning function does not strip trailing
non-numeric characters — it removes exactly one final character.  On the
part 7AB the rule of the claim parses 7, while the code strips one
character, passes 7A to int, and raises ValueError (none). -/
theorem clean_esi_string_strips_one_char :
    clean_esi_string "7AB" = none ∧
    clean_sensitivity_code_spec "7AB" = some 7 := by
  refine ⟨by decide, by decide⟩

/-- C5 amended: cleaning is a pure function of the input string satisfying
the three stated examples; the input is split on the slash; the sentinel
part parses to 5, a purely numeric part parses to its value, and any other
part has exactly its final character removed and the remainder passed to
int (failing when the remainder is not a numeral); whenever every part
parses, the result is the maximum of the parsed values. -/
theorem clean_esi_string_max_of_parts :
    clean_esi_string "None" = some 5 ∧
    clean_esi_string "7A" = some 7 ∧
    clean_esi_string "3/8B" = some 8 ∧
    (∀ p : String, p ≠ "None" → pyIsNumeric p = true →
      clean_esi_part p = pyInt p) ∧
    (∀ p : String, p ≠ "None" → pyIsNumeric p = false →
      clean_esi_part p = pyInt (p.dropRight 1)) ∧
    (∀ (s : String) (vals : List Nat), cleanParts (pySplitOn '/' s) = some vals →
      ∃ v, clean_esi_string s = some v ∧ v ∈ vals ∧ ∀ w ∈ vals, w ≤ v) := by
  refine ⟨by decide, by decide, by decide, ?_, ?_, ?_⟩
  · intro p hne hnum
    simp [clean_esi_part, hne, hnum]
  · intro p hne hnum
    simp [clean_esi_part, hne, hnum]
  · intro s vals hparse
    cases hs : pySplitOn '/' s with
    | nil => exact absurd hs (pySplitOn_ne_nil '/' s)
    | cons p ps =>
      rw [hs] at hparse
      cases vals with
      | nil =>
        exfalso
        simp only [cleanParts] at hparse
        rcases h₁ : clean_esi_part p with _ | v₁ <;> rw [h₁] at hparse <;>
          [exact (Option.noConfusion hparse);
           rcases h₂ : cleanParts ps with _ | vs₁ <;> rw [h₂] at hparse <;>
             [exact (Option.noConfusion hparse); simp at hparse]]
      | cons v vs =>
        refine ⟨vs.foldl max v, ?_, foldl_max_mem v vs, le_foldl_max v vs⟩
        rw [clean_esi_string, hs, hparse]

/-- C5 amended, witness: the per-part rules and the max-of-parts rule
instantiated on concrete inputs. -/
theorem clean_esi_string_max_of_parts_witness :
    clean_esi_part "10" = pyInt "10" ∧
    clean_esi_part "8B" = pyInt "8" ∧
    (∃ v, clean_esi_string "3/8B" = some v ∧ v ∈ [3, 8] ∧
      ∀ w ∈ [3, 8], w ≤ v) :=
  ⟨clean_esi_string_max_of_parts.2.2.2.1 "10" (by decide) (by decide),
   clean_esi_string_max_of_parts.2.2.2.2.1 "8B" (by decide) (by decide),
   clean_esi_string_max_of_parts.2.2.2.2.2 "3/8B" [3, 8] (by decide)⟩

/-! ### Claim C6 -/

/-- C6 counterexample: an input whose cleaned numeral is outside [1, 10] is
not rejected — clean_esi_string returns 42 for the input 42, silently
passing the out-of-range value through. -/
theorem clean_esi_string_no_range_check :
    clean_esi_string "42" = some 42 ∧ ¬(1 ≤ 42 ∧ 42 ≤ 10) := by
  refine ⟨by decide, by decide⟩

/-- C6 amended: the cleaning step performs no range validation at all — a
cleaned numeral outside the closed range [1, 10] is returned unchanged,
neither clamped into range nor turned into an error, both below and above
the range and also when combined with an in-range part. -/
theorem clean_esi_string_returns_out_of_range :
    clean_esi_string "0" = some 0 ∧
    clean_esi_string "11" = some 11 ∧
    clean_esi_string "12/2" = some 12 := by
  refine ⟨by decide, by decide, by decide⟩

/-! ### Claim C7 -/

/-- When no status entry matches the stranded flag, argwhere is empty. -/
theorem argwhere_eq_nil (ds : SimDataset) (flag : Option Nat)
    (h : ∀ row ∈ ds.status, ∀ c ∈ row, statusMatches c flag = false) :
    argwhereStranded ds flag = [] := by
  apply List.eq_nil_iff_forall_not_mem.2
  intro p hp
  simp only [argwhereStranded, List.mem_flatMap] at hp
  obtain ⟨q, hq, hmem⟩ := hp
  simp only [List.mem_filterMap] at hmem
  obtain ⟨r, hr, heq⟩ := hmem
  have hrow : q.2 ∈ ds.status := by
    rcases q with ⟨i, row⟩
    exact List.getElem?_mem (List.mem_enum_iff_getElem?.1 hq)
  have hcell : r.2 ∈ q.2 := by
    rcases r with ⟨j, c⟩
    exact List.getElem?_mem (List.mem_enum_iff_getElem?.1 hr)
  rw [h q.2 hrow r.2 hcell] at heq
  exact Option.noConfusion heq

/-- The skip-empty counting fold leaves its accumulator unchanged when every
id is the empty string. -/
theorem foldl_skip_empty (mem : List String) (h : ∀ g ∈ mem, g = "") :
    ∀ acc : List (String × Nat),
      mem.foldl (fun acc id => if id = "" then acc else upsertCount acc id) acc
        = acc := by
  induction mem with
  | nil => intro acc; rfl
  | cons g rest ih =>
    intro acc
    have hg : g = "" := h g (List.mem_cons_self _ _)
    simp only [List.foldl_cons, hg, if_pos rfl]
    exact ih (fun x hx => h x (List.mem_cons_of_mem _ hx)) acc

/-- Looking up only empty-string labels in the patched table returns the
explicit zero row for every particle. -/
theorem lookupAll_all_empty (mem : List String) (h : ∀ g ∈ mem, g = "") :
    lookupAll [("", 0)] mem = some (List.replicate mem.length 0) := by
  induction mem with
  | nil => rfl
  | cons g rest ih =>
    have hg : g = "" := h g (List.mem_cons_self _ _)
    have hrest := ih (fun x hx => h x (List.mem_cons_of_mem _ hx))
    simp [lookupAll, hg, List.lookup, hrest, List.replicate]

/-- C7 counterexample: the claim fails on uninitialised memory.  In the run
below the single particle never strands, yet because the np.empty allocation
read back the garbage id zzz, the per-segment pb table is [(zzz, 1)] instead
of empty and the particle receives pb = 1 instead of 0. -/
theorem pb_garbage_when_no_strandings :
    (∀ row ∈ noStrandDS.status, ∀ c ∈ row,
      statusMatches c (get_stranded_flag_from_status noStrandDS.flag_meanings)
        = false) ∧
    calc_pb_per_esi_segment noStrandDS onePointESI ["zzz"] = [("zzz", 1)] ∧
    calc_pb_per_particle noStrandDS onePointESI ["zzz"] = some [1] := by
  refine ⟨by decide, ?_, ?_⟩ <;>
    simp [calc_pb_per_particle, calc_pb_per_esi_segment,
      get_stranded_per_esi_segment, get_esi_per_particle, argwhereStranded,
      noStrandDS, get_stranded_flag_from_status, pySplitWs, splitChars,
      statusMatches, upsertCount, lookupAll, List.lookup]

/-- C7 amended: in a run where no particle strands, and provided the
unwritten entries of the np.empty id array read back as empty strings, the
per-segment pb table is empty (so the division by the stranded-count sum is
never performed) and every particle resolves to pb = 0 through the explicit
empty-key row. -/
theorem pb_zero_when_no_strandings :
    ∀ (ds : SimDataset) (esi : ESICat) (mem : List String),
      (∀ row ∈ ds.status, ∀ c ∈ row,
        statusMatches c (get_stranded_flag_from_status ds.flag_meanings)
          = false) →
      (∀ g ∈ mem, g = "") →
      calc_pb_per_esi_segment ds esi mem = [] ∧
      calc_pb_per_particle ds esi mem = some (List.replicate mem.length 0) := by
  intro ds esi mem hns hmem
  have hzero : argwhereStranded ds
      (get_stranded_flag_from_status ds.flag_meanings) = [] :=
    argwhere_eq_nil ds _ hns
  have hesi : get_esi_per_particle ds esi mem = mem := by
    rw [get_esi_per_particle, hzero]
    rfl
  have hcounts : get_stranded_per_esi_segment ds esi mem = [] := by
    rw [get_stranded_per_esi_segment, hesi]
    exact foldl_skip_empty mem hmem []
  have hseg : calc_pb_per_esi_segment ds esi mem = [] := by
    rw [calc_pb_per_esi_segment, hcounts]
    rfl
  refine ⟨hseg, ?_⟩
  rw [calc_pb_per_particle, hesi, hseg]
  exact lookupAll_all_empty mem hmem

/-- C7 amended, witness: a two-particle run with no stranded status and
zeroed memory yields the empty per-segment table and pb = 0 for both
particles. -/
theorem pb_zero_when_no_strandings_witness :
    calc_pb_per_esi_segment noStrandWordDS onePointESI ["", ""] = [] ∧
    calc_pb_per_particle noStrandWordDS onePointESI ["", ""]
      = some (List.replicate 2 0) :=
  pb_zero_when_no_strandings noStrandWordDS onePointESI ["", ""]
    (by decide) (by decide)

/-! ### Claim C8 -/

/-- C8: the longitude conversion satisfies the three stated examples, its
output is congruent to its input modulo 360 for every integer longitude
(so adding 360 back where negative recovers the input modulo 360), and it
maps [0, 360) into [-180, 180). -/
theorem lon360_to_lon180_roundtrip :
    lon360_to_lon180 200 = -160 ∧
    lon360_to_lon180 360 = 0 ∧
    lon360_to_lon180 180 = -180 ∧
    (∀ lon : Int, lon360_to_lon180 lon % 360 = lon % 360) ∧
    (∀ lon : Int, 0 ≤ lon → lon < 360 →
      -180 ≤ lon360_to_lon180 lon ∧ lon360_to_lon180 lon < 180) := by
  refine ⟨by decide, by decide, by decide, ?_, ?_⟩
  · intro lon
    unfold lon360_to_lon180
    omega
  · intro lon h₁ h₂
    unfold lon360_to_lon180
    omega

/-- C8 witness: the congruence and the range bound instantiated at 200. -/
theorem lon360_to_lon180_roundtrip_witness :
    lon360_to_lon180 200 % 360 = 200 % 360 ∧
    (-180 ≤ lon360_to_lon180 200 ∧ lon360_to_lon180 200 < 180) :=
  ⟨lon360_to_lon180_roundtrip.2.2.2.1 200,
   lon360_to_lon180_roundtrip.2.2.2.2 200 (by decide) (by decide)⟩

/-! ### Claim C9 -/

/-- C9: the AIS spatial index holds only cells with strictly positive count,
so whenever the nearest-neighbour query returns a valid index into the
index — which it does for every query point, regardless of distance, as
long as the index is nonempty — the release point receives an integer count
of at least 1 and pt is at least 1 / days_in_month, hence strictly
positive, clipping included. -/
theorem pt_strictly_positive :
    ∀ (raster : List ((Rat × Rat) × Int)) (ndays ix : Nat),
      1 ≤ ndays → ix < (load_vessel_counts raster).length →
      (∀ cell ∈ load_vessel_counts raster, 0 < cell.2) ∧
      (1 : Rat) / ndays ≤
        calc_pt ((load_vessel_counts raster).map (fun c => c.2)) ix ndays ∧
      0 < calc_pt ((load_vessel_counts raster).map (fun c => c.2)) ix ndays := by
  intro raster ndays ix hdays hix
  have hpos : ∀ cell ∈ load_vessel_counts raster, 0 < cell.2 := by
    intro cell hc
    have h := (List.mem_filter.1 hc).2
    exact of_decide_eq_true h
  have hn : (0 : Rat) < (ndays : Rat) := by
    exact_mod_cast Nat.lt_of_lt_of_le Nat.zero_lt_one hdays
  have hcount : 1 ≤ (load_vessel_counts raster)[ix].2 :=
    hpos _ (List.getElem_mem hix)
  have hgetd : ((load_vessel_counts raster).map (fun c => c.2)).getD ix 0 =
      (load_vessel_counts raster)[ix].2 := by
    rw [List.getD_eq_getElem?_getD, List.getElem?_map]
    rw [List.getElem?_eq_getElem hix]
    rfl
  have hcq : (1 : Rat) ≤ (((load_vessel_counts raster).map
      (fun c => c.2)).getD ix 0 : Int) := by
    rw [hgetd]
    exact_mod_cast hcount
  have hfrac : (1 : Rat) / ndays ≤
      ((((load_vessel_counts raster).map (fun c => c.2)).getD ix 0 : Int) : Rat)
        / (ndays : Rat) :=
    (div_le_div_iff_of_pos_right hn).2 hcq
  refine ⟨hpos, ?_⟩
  unfold calc_pt
  by_cases hclip : 1 <
      ((((load_vessel_counts raster).map (fun c => c.2)).getD ix 0 : Int) : Rat)
        / (ndays : Rat)
  · rw [if_pos hclip]
    constructor
    · exact (div_le_one hn).2 (by exact_mod_cast hdays)
    · exact one_pos
  · rw [if_neg hclip]
    exact ⟨hfrac, lt_of_lt_of_le (div_pos one_pos hn) hfrac⟩

/-- C9 witness: a raster with one cell of count 3 and a 31-day month gives
pt = 3/31, which is at least 1/31 and strictly positive. -/
theorem pt_strictly_positive_witness :
    (∀ cell ∈ load_vessel_counts [((0, 0), 3)], 0 < cell.2) ∧
    (1 : Rat) / 31 ≤
      calc_pt ((load_vessel_counts [((0, 0), 3)]).map (fun c => c.2)) 0 31 ∧
    0 < calc_pt ((load_vessel_counts [((0, 0), 3)]).map (fun c => c.2)) 0 31 :=
  pt_strictly_positive [((0, 0), 3)] 31 0 (by decide) (by decide)

/-! ### Claim C10 -/

/-- A fold of element writes leaves every index outside the write set
untouched. -/
theorem getElem?_foldl_set {β : Type} (f : Nat × Nat → β)
    (l : List (Nat × Nat)) (i : Nat) :
    ∀ init : List β, (∀ p ∈ l, p.1 ≠ i) →
      (l.foldl (fun arr p => arr.set p.1 (f p)) init)[i]? = init[i]? := by
  induction l with
  | nil =>
    intro init _
    rfl
  | cons q rest ih =>
    intro init h
    simp only [List.foldl_cons]
    rw [ih (init.set q.1 (f q)) (fun p hp => h p (List.mem_cons_of_mem _ hp))]
    exact List.getElem?_set_ne (h q (List.mem_cons_self _ _))

/-- Characterisation of the argwhere index pairs: (i, j) is produced exactly
when particle i has a status equal to the stranded flag at time j. -/
theorem mem_argwhereStranded (ds : SimDataset) (flag : Option Nat) (i j : Nat) :
    (i, j) ∈ argwhereStranded ds flag ↔
      ∃ row, ds.status[i]? = some row ∧
        ∃ c, row[j]? = some c ∧ statusMatches c flag = true := by
  simp only [argwhereStranded, List.mem_flatMap, List.mem_filterMap]
  constructor
  · rintro ⟨⟨i₁, row⟩, hq, ⟨j₁, c⟩, hr, heq⟩
    by_cases hm : statusMatches c flag = true
    · rw [if_pos hm] at heq
      injection heq with heq₁
      injection heq₁ with hi hj
      subst hi
      subst hj
      exact ⟨row, List.mem_enum_iff_getElem?.1 hq, c,
        List.mem_enum_iff_getElem?.1 hr, hm⟩
    · rw [if_neg hm] at heq
      exact Option.noConfusion heq
  · rintro ⟨row, hrow, c, hc, hm⟩
    exact ⟨(i, row), List.mem_enum_iff_getElem?.2 hrow,
      ⟨(j, c), List.mem_enum_iff_getElem?.2 hc, by rw [if_pos hm]⟩⟩

/-- C10: the per-particle ESI-id and oil-mass arrays are written only at
particle indices that appear in the argwhere pair list — exactly the
particles with at least one stranded status (first conjunct) — and every
other index reads back whatever the np.empty allocation held (second and
third conjuncts).  The downstream pipeline is correct only when that
held value is the empty string: with garbage content ghost, the single
never-stranded particle of noStrandDS receives pb = 1 instead of 0
(fourth conjunct). -/
theorem uninitialised_arrays_written_only_when_stranded :
    (∀ (ds : SimDataset) (flag : Option Nat) (i j : Nat),
      (i, j) ∈ argwhereStranded ds flag ↔
        ∃ row, ds.status[i]? = some row ∧
          ∃ c, row[j]? = some c ∧ statusMatches c flag = true) ∧
    (∀ (ds : SimDataset) (esi : ESICat) (mem : List String) (i : Nat),
      (∀ p ∈ argwhereStranded ds
        (get_stranded_flag_from_status ds.flag_meanings), p.1 ≠ i) →
      (get_esi_per_particle ds esi mem)[i]? = mem[i]?) ∧
    (∀ (ds : SimDataset) (mem : List Rat) (i : Nat),
      (∀ p ∈ argwhereStranded ds
        (get_stranded_flag_from_status ds.flag_meanings), p.1 ≠ i) →
      (get_oil_mass_per_particle ds mem)[i]? = mem[i]?) ∧
    calc_pb_per_particle noStrandDS onePointESI ["ghost"] = some [1] := by
  refine ⟨mem_argwhereStranded, ?_, ?_, ?_⟩
  · intro ds esi mem i h
    exact getElem?_foldl_set _ _ i mem h
  · intro ds mem i h
    exact getElem?_foldl_set _ _ i mem h
  · simp [calc_pb_per_particle, calc_pb_per_esi_segment,
      get_stranded_per_esi_segment, get_esi_per_particle, argwhereStranded,
      noStrandDS, get_stranded_flag_from_status, pySplitWs, splitChars,
      statusMatches, upsertCount, lookupAll, List.lookup]

/-- C10 witness: for the never-stranded particle of noStrandDS, both arrays
read back exactly the supplied initial memory content. -/
theorem uninitialised_arrays_witness :
    (get_esi_per_particle noStrandDS onePointESI ["keep"])[0]? =
      (["keep"] : List String)[0]? ∧
    (get_oil_mass_per_particle noStrandDS [7])[0]? = ([7] : List Rat)[0]? :=
  ⟨uninitialised_arrays_written_only_when_stranded.2.1 noStrandDS onePointESI
      ["keep"] 0 (by decide),
   uninitialised_arrays_written_only_when_stranded.2.2.1 noStrandDS [7] 0
      (by decide)⟩

end VesselDrift
